import Mathlib

/-!
Verification development for the sqlixx typed SQLite access layer
(files src/sqlixx/data.hpp, conversions.hpp, statement.hpp, connection.hpp).

The C++ code is shallowly embedded: each C++ function relevant to the
specification is translated into an executable Lean definition over explicit
state.  Machine pointers are modelled by `Option` (with `none` as the null
pointer), byte buffers by `List Nat`, the SQLite destructor argument
(`sqlite3_destructor_type`) by the inductive `Deleter`, and raised C++
exceptions by `Except`.
-/

namespace Sqlixx

/-- SQLITE_OK result code. -/
def SQLITE_OK : Int := 0

/-- SQLITE_ERROR result code. -/
def SQLITE_ERROR : Int := 1

/-- SQLITE_ROW result code of sqlite3_step. -/
def SQLITE_ROW : Int := 100

/-- SQLITE_DONE result code of sqlite3_step. -/
def SQLITE_DONE : Int := 101

/-- The sqlite3_destructor_type argument of the bind functions:
SQLITE_STATIC (the null function pointer 0), SQLITE_TRANSIENT (-1), or a real
release-function pointer (identified here by a natural number). -/
inductive Deleter where
  | sqliteStatic
  | sqliteTransient
  | custom (id : Nat)
deriving DecidableEq

/-- The `Data<T, E>` descriptor of data.hpp: a pointer to a byte buffer
(`none` models the null pointer, `some bytes` a buffer holding `bytes`),
the size field, and the stored deleter.  Fields keep the C++ names. -/
structure Data where
  data_ : Option (List Nat)
  size_ : Nat
  deleter_ : Deleter
deriving DecidableEq

/-- The state produced by `Data()` (the default constructor):
`data_{}` is the null pointer, `size_{}` is zero, `deleter_{SQLITE_STATIC}`. -/
def Data.init : Data := { data_ := none, size_ := 0, deleter_ := .sqliteStatic }

/-- `Data::is_data_owner()`:
`deleter_ && (deleter_ != SQLITE_STATIC) && (deleter_ != SQLITE_TRANSIENT)`,
i.e. the deleter is a real release function. -/
def Data.is_data_owner (d : Data) : Bool :=
  match d.deleter_ with
  | .custom _ => true
  | _ => false

/-- `Data::~Data()`: invokes `deleter_(data_)` iff `is_data_owner()`.
Returns the number of deleter invocations the destructor performs. -/
def Data.destroy (d : Data) : Nat :=
  if d.is_data_owner then 1 else 0

/-- `Data::Data(Data&& rhs)`: the target takes the fields of `rhs` and `rhs`
is left with null data, zero size and a SQLITE_STATIC deleter (that is,
exactly the default-constructed state).  Returns (target, rhs afterwards). -/
def Data.moveFrom (rhs : Data) : Data × Data :=
  ({ data_ := rhs.data_, size_ := rhs.size_, deleter_ := rhs.deleter_ }, Data.init)

/-- `value = Data()` — the move-assignment operator applied with a
default-constructed temporary on the right-hand side.  The operator
move-constructs `tmp` from the empty temporary and swaps it with `value`,
so `value` becomes `Data.init` while `tmp` holds the old fields of `value`;
`tmp` is then destroyed at the end of the operator, invoking the stored
deleter on the old buffer whenever the old state owned it.
Returns (new state of value, number of deleter invocations). -/
def Data.assignEmpty (d : Data) : Data × Nat :=
  (Data.init, Data.destroy d)

/-- `Data::release()`: first sets `deleter_ = SQLITE_STATIC`, then swaps with a
default-constructed temporary; that temporary holds the old buffer with a
SQLITE_STATIC deleter, so destroying it performs `Data.destroy` of that
non-owning state, which is zero invocations.  Returns
(the released pointer, new state of the descriptor, deleter invocations). -/
def Data.release (d : Data) : Option (List Nat) × Data × Nat :=
  (d.data_, Data.init, Data.destroy { d with deleter_ := Deleter.sqliteStatic })

/-- An operation performed on a `Data` descriptor during its lifetime,
between construction and destruction. -/
inductive DataOp where
  | moveFrom
  | release
deriving DecidableEq

/-- Runs a sequence of lifetime operations on a descriptor, returning the final
state together with the total number of deleter invocations the operations
perform. -/
def Data.runOps : Data → List DataOp → Data × Nat
  | d, [] => (d, 0)
  | d, DataOp.moveFrom :: rest =>
    let r := Data.runOps (Data.moveFrom d).2 rest
    (r.1, r.2)
  | d, DataOp.release :: rest =>
    let rel := Data.release d
    let r := Data.runOps rel.2.1 rest
    (r.1, rel.2.2 + r.2)

/-- Total number of invocations of the stored release function over a
descriptor's whole lifetime: the invocations performed by the intermediate
operations plus the invocation (if any) performed by the destructor at the
end of the lifetime. -/
def Data.lifetimeInvocations (d : Data) (ops : List DataOp) : Nat :=
  (Data.runOps d ops).2 + Data.destroy (Data.runOps d ops).1

/-- How a C++ argument is passed: as a named lvalue or as a temporary
rvalue.  This decides `std::is_rvalue_reference_v<B&&>` in the source. -/
inductive PassCat where
  | lvalue
  | rvalue
deriving DecidableEq

/-- The arguments the conversion hands to sqlite3_bind_blob64 or
sqlite3_bind_text64: the data pointer, the size, and the destructor. -/
structure BindCall where
  dataArg : Option (List Nat)
  sizeArg : Nat
  destrArg : Deleter
deriving DecidableEq

/-- `Conversions<Data<T, E>>::bind` (conversions.hpp).  The `destr` lambda
runs first: for an rvalue argument that owns its buffer it saves `deleter_`
and performs `value = Data()`, whose internal temporary destroys the owned
buffer (see `Data.assignEmpty`); in every other case it yields SQLITE_STATIC
and leaves the argument untouched.  The engine is then called with
`value.data()` and `value.size()` as they are AFTER the lambda ran.
Returns (the engine call, the descriptor afterwards, deleter invocations
performed during the bind). -/
def Conversions_Data_bind (cat : PassCat) (value : Data) :
    BindCall × Data × Nat :=
  match cat with
  | .rvalue =>
    if value.is_data_owner then
      let destr := value.deleter_
      let e := Data.assignEmpty value
      ({ dataArg := e.1.data_, sizeArg := e.1.size_, destrArg := destr }, e.1, e.2)
    else
      ({ dataArg := value.data_, sizeArg := value.size_,
         destrArg := Deleter.sqliteStatic }, value, 0)
  | .lvalue =>
    ({ dataArg := value.data_, sizeArg := value.size_,
       destrArg := Deleter.sqliteStatic }, value, 0)

/-- `Conversions<std::string / std::string_view>::bind` (conversions.hpp):
`destr = is_rvalue ? SQLITE_TRANSIENT : SQLITE_STATIC`, then
sqlite3_bind_text64 with the string's bytes. -/
def Conversions_string_bind (cat : PassCat) (bytes : List Nat) : BindCall :=
  { dataArg := some bytes, sizeArg := bytes.length,
    destrArg := match cat with
      | .rvalue => Deleter.sqliteTransient
      | .lvalue => Deleter.sqliteStatic }

/-- An exception raised by the statement and connection layer:
`precondition` models the generic `Exception` class (raised locally before an
engine call), `engine` models `Sqlite_exception` (carrying the engine's
numeric result code and a message). -/
inductive StmtErr where
  | precondition (what : String)
  | engine (code : Int) (what : String)
deriving DecidableEq

/-- The engine-side description of a prepared statement:
the statement's parameters in textual order (so the parameter at 1-based
engine position `i` has name `paramNames.get (i-1)`), and the result columns
in order (the column at 0-based engine position `n` is `colNames.get n`). -/
structure StmtInfo where
  paramNames : List String
  colNames : List String
deriving DecidableEq

/-- sqlite3_bind_parameter_count. -/
def sqlite3_bind_parameter_count (info : StmtInfo) : Int :=
  info.paramNames.length

/-- sqlite3_bind_parameter_index: the 1-based index of the parameter with the
given name, or 0 if there is no such parameter. -/
def sqlite3_bind_parameter_index (info : StmtInfo) (name : String) : Int :=
  match List.findIdx? (fun s => s == name) info.paramNames with
  | some i => (i : Int) + 1
  | none => 0

/-- sqlite3_bind_parameter_name: the name of the parameter at the given
1-based index, or the null pointer for an out-of-range index.  (The wrapper
under verification never calls this engine function; it is defined here to
state what a parameter's name actually is.) -/
def sqlite3_bind_parameter_name (info : StmtInfo) (i : Int) : Option String :=
  if h : 1 ≤ i ∧ i ≤ info.paramNames.length then
    some (info.paramNames.get ⟨(i - 1).toNat, by omega⟩)
  else
    none

/-- sqlite3_column_count. -/
def sqlite3_column_count (info : StmtInfo) : Int :=
  info.colNames.length

/-- sqlite3_column_name: the name of the result column at the given 0-based
index, or the null pointer (`none`) for an out-of-range index. -/
def sqlite3_column_name (info : StmtInfo) (n : Int) : Option String :=
  if h : 0 ≤ n ∧ n < info.colNames.length then
    some (info.colNames.get ⟨n.toNat, by omega⟩)
  else
    none

namespace Statement

/-- `Statement::parameter_count()`: checks the handle, then delegates to
sqlite3_bind_parameter_count. -/
def parameter_count (handle : Bool) (info : StmtInfo) : Except StmtErr Int :=
  if !handle then
    .error (.precondition "cannot get parameter count of invalid SQLite statement")
  else
    .ok (sqlite3_bind_parameter_count info)

/-- `Statement::parameter_index(name)`: checks the handle and the name pointer
(the name is a `String` here, so the null-pointer check cannot fire), then
returns `sqlite3_bind_parameter_index(handle_, name) - 1`. -/
def parameter_index (handle : Bool) (info : StmtInfo) (name : String) :
    Except StmtErr Int :=
  if !handle then
    .error (.precondition "cannot get parameter index of invalid SQLite statement")
  else
    .ok (sqlite3_bind_parameter_index info name - 1)

/-- `Statement::parameter_index_throw(name)`: `parameter_index`, raising when
the result is negative. -/
def parameter_index_throw (handle : Bool) (info : StmtInfo) (name : String) :
    Except StmtErr Int :=
  match parameter_index handle info name with
  | .error e => .error e
  | .ok index =>
    if index < 0 then
      .error (.precondition ("SQLite statement has no parameter " ++ name))
    else
      .ok index

/-- `Statement::parameter_name(index)`: checks the handle and that
`index < parameter_count()`, then returns
`sqlite3_column_name(handle_, index + 1)` — note: the COLUMN name at engine
position `index + 1`, not the parameter name. -/
def parameter_name (handle : Bool) (info : StmtInfo) (index : Int) :
    Except StmtErr (Option String) :=
  if !handle then
    .error (.precondition "cannot get parameter name of invalid SQLite statement")
  else if !(index < sqlite3_bind_parameter_count info) then
    .error (.precondition "cannot get SQLite statement parameter name using invalid index")
  else
    .ok (sqlite3_column_name info (index + 1))

/-- `Statement::bind_null(const int index)`: checks the handle and that
`index < parameter_count()`, then calls `sqlite3_bind_null(handle_, index + 1)`.
The `.ok` payload is the 1-based index actually handed to the engine. -/
def bind_null (handle : Bool) (info : StmtInfo) (index : Int) :
    Except StmtErr Int :=
  if !handle then
    .error (.precondition "cannot bind NULL to a parameter of invalid SQLite statement")
  else if !(index < sqlite3_bind_parameter_count info) then
    .error (.precondition "cannot bind NULL to a parameter of SQLite statement using invalid index")
  else
    .ok (index + 1)

/-- `Statement::bind(const int index, T&& value)` — the typed template
overload: checks the handle and that `index < parameter_count()`, then calls
`Conversions<U>::bind(handle_, index + 1, value)`.  The `.ok` payload is the
1-based engine index that the conversion receives. -/
def bind (handle : Bool) (info : StmtInfo) (index : Int) :
    Except StmtErr Int :=
  if !handle then
    .error (.precondition "cannot bind a value to a parameter of invalid SQLite statement")
  else if !(index < sqlite3_bind_parameter_count info) then
    .error (.precondition "cannot bind a value to a parameter of SQLite statement using invalid index")
  else
    .ok (index + 1)

/-- The arguments handed to sqlite3_bind_text by
`Statement::bind(const int, const char*)`: the 1-based index, the byte count
argument (-1: the engine measures the C string itself), the destructor. -/
structure TextBindCall where
  engineIndex : Int
  nbytes : Int
  destr : Deleter
deriving DecidableEq

/-- `Statement::bind(const int index, const char* value)` — the C-string
overload: checks the handle and that `index < parameter_count()`, then calls
`sqlite3_bind_text(handle_, index + 1, value, -1, SQLITE_STATIC)`.  The
argument is taken by pointer, so there is no lvalue/rvalue distinction: the
destructor is always SQLITE_STATIC. -/
def bindCString (handle : Bool) (info : StmtInfo) (index : Int) :
    Except StmtErr TextBindCall :=
  if !handle then
    .error (.precondition "cannot bind a text to a parameter of invalid SQLite statement")
  else if !(index < sqlite3_bind_parameter_count info) then
    .error (.precondition "cannot bind a text to a parameter of SQLite statement using invalid index")
  else
    .ok { engineIndex := index + 1, nbytes := -1, destr := Deleter.sqliteStatic }

/-- `Statement::bind(const char* name, const char* value)`:
`bind(parameter_index_throw(name), value)`. -/
def bindCStringByName (handle : Bool) (info : StmtInfo) (name : String) :
    Except StmtErr TextBindCall :=
  match parameter_index_throw handle info name with
  | .error e => .error e
  | .ok index => bindCString handle info index

/-- `Statement::result<T>(const int index)`: checks the handle and that
`index < column_count()`, then calls `Conversions<U>::result(handle_, index)`.
The `.ok` payload is the 0-based column index handed to the conversion (the
result side performs no index translation). -/
def result (handle : Bool) (info : StmtInfo) (index : Int) :
    Except StmtErr Int :=
  if !handle then
    .error (.precondition "cannot get result column value of invalid SQLite statement")
  else if !(index < sqlite3_column_count info) then
    .error (.precondition "cannot get result column value of SQLite statement using invalid index")
  else
    .ok index

/-- `Statement::column_name(const int index)`: checks the handle and that
`index < column_count()`, then returns `sqlite3_column_name(handle_, index)`. -/
def column_name (handle : Bool) (info : StmtInfo) (index : Int) :
    Except StmtErr (Option String) :=
  if !handle then
    .error (.precondition "cannot get result column name of invalid SQLite statement")
  else if !(index < sqlite3_column_count info) then
    .error (.precondition "cannot get result column count of SQLite statement using invalid index")
  else
    .ok (sqlite3_column_name info index)

end Statement

/-- Decidable equality of `Except` outcomes, used to evaluate the embedded
functions on concrete inputs. -/
instance {e a : Type} [DecidableEq e] [DecidableEq a] :
    DecidableEq (Except e a) := fun x y =>
  match x, y with
  | .ok u, .ok v =>
    if h : u = v then isTrue (by rw [h])
    else isFalse (by intro hc; cases hc; exact h rfl)
  | .error u, .error v =>
    if h : u = v then isTrue (by rw [h])
    else isFalse (by intro hc; cases hc; exact h rfl)
  | .ok _, .error _ => isFalse (by intro hc; cases hc)
  | .error _, .ok _ => isFalse (by intro hc; cases hc)

/-- The shape of the `execute` callback, decided statically by
`detail::Execute_callback_traits`: `plain` is a callback invocable with
`(const Statement&)` (has_error_parameter = false), `witherr` is a callback
invocable with `(const Statement&, int)` (has_error_parameter = true).  The
two partial specializations are mutually exclusive: a callback invocable both
ways matches both specializations and fails to compile. -/
inductive CbKind where
  | plain
  | witherr
deriving DecidableEq

/-- An observable action performed by `Statement::execute`:
an automatic `reset()`, a `bind(i, v)` of a positional value (0-based wrapper
index), a `sqlite3_step` returning the given code, a callback invocation on a
row (with the second argument for the two-parameter form), or a callback
invocation with an error code (two-parameter form only). -/
inductive Event where
  | reset
  | bindCall (values : List Int)
  | bindp (index : Nat) (v : Int)
  | step (code : Int)
  | cbRow (code : Option Int)
  | cbErr (code : Int)
deriving DecidableEq

/-- `Statement::bind_many(values...)`: the fold
`(bind(0, v0), bind(1, v1), ...)` — one positional bind event per value, in
order, at wrapper indexes `0 .. n-1`. -/
def bind_many (values : List Int) : List Event :=
  values.enum.map (fun p => Event.bindp p.1 p.2)

namespace Statement

/-- The step loop of `Statement::execute`.  `steps` enumerates the codes the
successive `sqlite3_step` calls return, `cont` gives the boolean result of
the n-th row callback (`fun _ => true` models a callback returning void or
always true).  Returns (the C++ outcome: the returned int or the raised
exception, the final `last_step_result_`, the events in order).  An exhausted
`steps` list cannot occur in a real engine run; it is mapped to an artificial
error outcome. -/
def stepLoop (kind : CbKind) (cont : Nat → Bool) :
    List Int → Nat → Except StmtErr Int × Int × List Event
  | [], _ => (.error (.precondition "step oracle exhausted"), -2, [])
  | c :: rest, n =>
    if c = SQLITE_ROW then
      let cbev : Event := match kind with
        | .plain => Event.cbRow none
        | .witherr => Event.cbRow (some c)
      if cont n then
        let r := stepLoop kind cont rest (n + 1)
        (r.1, r.2.1, Event.step c :: cbev :: r.2.2)
      else
        (.ok c, c, [Event.step c, cbev])
    else if c = SQLITE_DONE then
      (.ok c, c, [Event.step c])
    else
      match kind with
      | .witherr => (.ok c, c, [Event.step c, Event.cbErr c])
      | .plain =>
        (.error (.engine c "SQLite statement execution failed"), c,
          [Event.step c])

/-- The outcome of one `Statement::execute` call: the C++ result (returned
code or raised exception), the final `last_step_result_`, and the events. -/
structure ExecOut where
  result : Except StmtErr Int
  last : Int
  events : List Event
deriving DecidableEq

/-- `Statement::execute(callback, values...)` (statement.hpp).
`last0` is `last_step_result_` on entry (−1 after construction or `reset()`).
The body: reject an invalid handle; if `last0 = SQLITE_DONE` call `reset()`
(which sets the marker to −1); if the marker is now negative (or DONE, which
cannot survive the reset) perform `bind_many(values...)`; then run the step
loop. -/
def execute (kind : CbKind) (cont : Nat → Bool) (handle : Bool) (last0 : Int)
    (values : List Int) (steps : List Int) : ExecOut :=
  if !handle then
    { result := .error (.precondition "cannot execute invalid SQLite statement"),
      last := last0, events := [] }
  else
    let l1 : Int := if last0 = SQLITE_DONE then -1 else last0
    let ev1 : List Event := if last0 = SQLITE_DONE then [Event.reset] else []
    let doBind : Bool := decide (l1 < 0 ∨ l1 = SQLITE_DONE)
    let ev2 : List Event :=
      if doBind then Event.bindCall values :: bind_many values else []
    let r := stepLoop kind cont steps 0
    { result := r.1, last := r.2.1, events := ev1 ++ ev2 ++ r.2.2 }

/-- `Statement::reset()`: sets `last_step_result_ = -1` and returns the code
of `sqlite3_reset(handle_)`; it never raises. -/
def reset (sqlite3ResetResult : Int) : Int × Int :=
  (sqlite3ResetResult, -1)

/-- `Statement::close()`: calls `sqlite3_finalize(handle_)`, sets
`last_step_result_ = -1` and `handle_ = nullptr`, and returns the finalize
result code.  It is a total function into a plain tuple: no exception is
raised on any input.  Returns (returned code, new last_step_result_,
new handle validity). -/
def close (finalizeResult : Int) : Int × Int × Bool :=
  (finalizeResult, -1, false)

/-- `Statement::~Statement()`: calls `close()` inside try/catch, printing any
exception to stderr.  Since `close` cannot raise, the destructor simply
performs it; the Bool records whether anything was logged to the diagnostic
stream (never, because `close` returns its code instead of raising). -/
def destructor (finalizeResult : Int) : Bool :=
  let _ := close finalizeResult
  false

end Statement

namespace Connection

/-- `Connection::close()`: calls `sqlite3_close(handle_)`; when the result is
not SQLITE_OK it RAISES `Sqlite_exception` with that code, otherwise it
clears the handle.  The `.ok` payload is the new handle validity. -/
def close (closeResult : Int) : Except StmtErr Bool :=
  if closeResult ≠ SQLITE_OK then
    .error (.engine closeResult "failed closing a SQLite database connection")
  else
    .ok false

/-- `Connection::~Connection()`: calls `close()` inside try/catch, printing
any exception to stderr and swallowing it.  Returns whether a failure was
logged; the destructor itself never propagates. -/
def destructor (closeResult : Int) : Bool :=
  match close closeResult with
  | .ok _ => false
  | .error _ => true

end Connection

/-- The positional bindings recorded in an event list, in order: the pairs
(0-based wrapper index, value) of the `bind(i, v)` calls performed. -/
def bindsOf : List Event → List (Nat × Int)
  | [] => []
  | Event.bindp i v :: rest => (i, v) :: bindsOf rest
  | _ :: rest => bindsOf rest

/-- The number of sqlite3_step calls recorded in an event list. -/
def stepsOf : List Event → Nat
  | [] => 0
  | Event.step _ :: rest => stepsOf rest + 1
  | _ :: rest => stepsOf rest

/-- Whether an event is one of the kinds the step loop can emit (a step or a
callback invocation; never a reset or a binding). -/
def isLoopEvent : Event → Bool
  | .step _ => true
  | .cbRow _ => true
  | .cbErr _ => true
  | _ => false

/-- The events of a step loop that passes `rows` successive SQLITE_ROW
results to an always-continuing callback. -/
def rowEvents (kind : CbKind) : Nat → List Event
  | 0 => []
  | m + 1 =>
    Event.step SQLITE_ROW ::
      (match kind with
        | .plain => Event.cbRow none
        | .witherr => Event.cbRow (some SQLITE_ROW)) :: rowEvents kind m

/-- A step oracle an actual engine can produce for one execute call: every
sqlite3_step result is a non-negative code, and the row sequence is finite
(some element is not SQLITE_ROW), so the loop always exits before the oracle
is exhausted. -/
def goodSteps (steps : List Int) : Bool :=
  steps.all (fun c => 0 ≤ c) && steps.any (fun c => !(c = SQLITE_ROW : Bool))

/-- The caller-visible statement session state, together with the ghost flag
`sinceBoundary`: whether a positional binding has occurred since the
statement's initial/reset state or since the last done. -/
structure SessSt where
  last : Int
  sinceBoundary : Bool
deriving DecidableEq

/-- The session state of a freshly prepared (or reset) statement:
`last_step_result_ = -1`, no binding since the initial state. -/
def SessSt.init : SessSt := { last := -1, sinceBoundary := false }

/-- One member-function call a caller can make between preparing a statement
and destroying it (the calls that touch the execution state machine). -/
inductive SessOp where
  | exec (kind : CbKind) (cont : Nat → Bool) (values : List Int) (steps : List Int)
  | resetOp

/-- Every exec operation of the list carries a step oracle an actual engine
can produce. -/
def goodOps (ops : List SessOp) : Bool :=
  ops.all (fun op =>
    match op with
    | .exec _ _ _ steps => goodSteps steps
    | .resetOp => true)

/-- Runs one execute call from a session state: the outcome is that of
`Statement.execute`; the ghost flag becomes false when the call ended at
done, and otherwise records whether this call (or an earlier one) performed
a positional binding since the last boundary. -/
def sessExec (kind : CbKind) (cont : Nat → Bool) (st : SessSt)
    (values : List Int) (steps : List Int) : Statement.ExecOut × SessSt :=
  let out := Statement.execute kind cont true st.last values steps
  let didBind : Bool := decide (Event.bindCall values ∈ out.events)
  (out,
    { last := out.last,
      sinceBoundary :=
        if out.last = SQLITE_DONE then false
        else st.sinceBoundary || didBind })

/-- Runs a sequence of session operations from a session state. -/
def sessRun : SessSt → List SessOp → SessSt
  | st, [] => st
  | st, SessOp.exec kind cont values steps :: rest =>
    sessRun (sessExec kind cont st values steps).2 rest
  | _st, SessOp.resetOp :: rest =>
    sessRun { last := -1, sinceBoundary := false } rest

/-- A raised C++ exception as seen by the caller: its what-message, either
alone (`base`) or together with the exception that std::throw_with_nested
attached to it (`withNested`). -/
inductive Exc where
  | base (what : String)
  | withNested (what : String) (inner : Exc)
deriving DecidableEq

/-- Whether the given message is the what-message of the exception or of any
exception nested (transitively) inside it: "visible to the caller". -/
def Exc.mentions : Exc → String → Bool
  | .base w, s => w == s
  | .withNested w inner, s => w == s || Exc.mentions inner s

/-- `Connection::with_rollback_on_error(callback)` (connection.hpp).
`callback` is the outcome of the unit of work, `transactionActive` the value
of `is_transaction_active()` inside the catch handler, `rollback` the outcome
of `execute("rollback")`.  In the inner catch handler the currently handled
exception is the ROLLBACK failure, so `std::throw_with_nested(Exception{
"SQLite ROLLBACK failed"})` propagates a new `Exception` whose nested
exception is the rollback failure; the `throw;` re-raising the original
error is unreachable on that path. -/
def with_rollback_on_error {A : Type} (callback : Except Exc A)
    (transactionActive : Bool) (rollback : Except Exc Unit) : Except Exc A :=
  match callback with
  | .ok a => .ok a
  | .error e =>
    if transactionActive then
      match rollback with
      | .ok _ => .error e
      | .error rbe => .error (Exc.withNested "SQLite ROLLBACK failed" rbe)
    else
      .error e

/-- The value a bound parameter slot holds inside the engine: SQL NULL, a
64-bit integer, a double, or a byte sequence (text or blob).  The engine
stores exactly what the bind call delivered (for SQLITE_STATIC it keeps the
caller's pointer, for SQLITE_TRANSIENT or a handed-over destructor its own
copy; either way the same bytes are visible on read-back as long as a
static buffer outlives the statement, which the caller must guarantee). -/
inductive SqlCell where
  | cnull
  | cint (v : Int)
  | creal (v : Float)
  | ctext (bytes : List Nat)
  | cblob (bytes : List Nat)

/-- The C cast of a 64-bit signed integer to a 32-bit signed integer
(two's-complement wraparound), as performed by sqlite3_column_int. -/
def toInt32 (v : Int) : Int :=
  (v + 2 ^ 31) % 2 ^ 32 - 2 ^ 31

/-- `Conversions<int>::bind`: sqlite3_bind_int sign-extends the argument to
the engine's 64-bit integer representation. -/
def Conversions_int_bind (v : Int) : SqlCell := .cint v

/-- `Conversions<int>::result`: sqlite3_column_int returns the stored 64-bit
integer cast to `int`.  Storage classes other than integer would go through
the engine's type coercion, which this development does not model (`none`). -/
def Conversions_int_result : SqlCell → Option Int
  | .cint v => some (toInt32 v)
  | _ => none

/-- `Conversions<sqlite3_int64>::bind`: sqlite3_bind_int64 stores the value. -/
def Conversions_int64_bind (v : Int) : SqlCell := .cint v

/-- `Conversions<sqlite3_int64>::result`: sqlite3_column_int64 returns the
stored 64-bit integer unchanged.  Other storage classes are not modelled. -/
def Conversions_int64_result : SqlCell → Option Int
  | .cint v => some v
  | _ => none

/-- `Conversions<double>::bind`: sqlite3_bind_double stores the value. -/
def Conversions_double_bind (v : Float) : SqlCell := .creal v

/-- `Conversions<double>::result`: sqlite3_column_double returns the stored
double unchanged.  Other storage classes are not modelled. -/
def Conversions_double_result : SqlCell → Option Float
  | .creal v => some v
  | _ => none

/-- What the engine stores when `Conversions<std::string>::bind` calls
sqlite3_bind_text64 with the string's data and size: the string's bytes,
whether the destructor was SQLITE_STATIC (lvalue) or SQLITE_TRANSIENT
(rvalue). -/
def string_store (cat : PassCat) (bytes : List Nat) : SqlCell :=
  .ctext (((Conversions_string_bind cat bytes).dataArg).getD [])

/-- `Conversions<std::string>::result`: builds the string from
sqlite3_column_text and sqlite3_column_bytes — the stored bytes.  Other
storage classes are not modelled. -/
def Conversions_string_result : SqlCell → Option (List Nat)
  | .ctext bytes => some bytes
  | _ => none

/-- What the engine stores for the bind call produced by
`Conversions<Data<T, 0>>::bind` (sqlite3_bind_blob64): with a null data
pointer the parameter is bound to SQL NULL; otherwise the first `sizeArg`
bytes of the buffer. -/
def Data_store (call : BindCall) : SqlCell :=
  match call.dataArg with
  | none => .cnull
  | some bytes => .cblob (bytes.take call.sizeArg)

/-- `Conversions<Data<T, 0>>::result`: builds
`Data{sqlite3_column_blob(..), sqlite3_column_bytes(..)}` with the default
SQLITE_STATIC deleter; on SQL NULL, sqlite3_column_blob returns the null
pointer and sqlite3_column_bytes returns 0.  Other storage classes are not
modelled. -/
def Conversions_Data_result : SqlCell → Option Data
  | .cblob bytes => some ⟨some bytes, bytes.length, .sqliteStatic⟩
  | .cnull => some ⟨none, 0, .sqliteStatic⟩
  | _ => none

/-- Binding a `Data` descriptor and reading the column back: the composition
of `Conversions<Data<T, 0>>::bind`, the engine's storage, and
`Conversions<Data<T, 0>>::result`. -/
def Data_roundtrip (cat : PassCat) (value : Data) : Option Data :=
  Conversions_Data_result (Data_store (Conversions_Data_bind cat value).1)

/-! ## Theorems -/

/-- Helper: forcing the deleter to SQLITE_STATIC yields a non-owning state. -/
theorem is_data_owner_static_update (d : Data) :
    Data.is_data_owner { d with deleter_ := Deleter.sqliteStatic } = false := rfl

/-- Helper: the default-constructed descriptor is non-owning. -/
theorem is_data_owner_init : Data.init.is_data_owner = false := rfl

/-- Helper: the default-constructed descriptor is non-owning, so destroying
it invokes no deleter. -/
theorem destroy_init_eq : Data.destroy Data.init = 0 := rfl

/-- Helper: lifetime operations starting from the default-constructed (empty,
non-owning) descriptor keep it empty and never invoke a deleter. -/
theorem runOps_init_eq (ops : List DataOp) :
    Data.runOps Data.init ops = (Data.init, 0) := by
  induction ops with
  | nil => rfl
  | cons op rest ih =>
    cases op with
    | moveFrom =>
      simp [Data.runOps, Data.moveFrom, ih]
    | release =>
      simp [Data.runOps, Data.release, Data.destroy,
        is_data_owner_static_update, ih]

/-- C9: the claim says an owning descriptor's stored release function is
invoked exactly once over its lifetime, either by explicit release or by
destruction.  Counterexample: an owning descriptor on which `release()` is
called and which is then destroyed has its release function invoked ZERO
times — `release()` relinquishes the buffer to the caller without invoking
the function, and the destructor of the released descriptor (now non-owning)
invokes nothing. -/
theorem C9_release_without_invocation :
    Data.is_data_owner ⟨some [9], 1, .custom 4⟩ = true ∧
    Data.lifetimeInvocations ⟨some [9], 1, .custom 4⟩ [DataOp.release] = 0 := by
  decide

/-- C9 (amended): an owning descriptor's stored release function is invoked
AT MOST once over its lifetime, and only by the destructor: it is invoked
exactly once when the descriptor is destroyed with no intervening move-from
or explicit release, and zero times otherwise — never twice, and never again
after a move or release, because both leave the source in the non-owning
default state. -/
theorem C9_deleter_invoked_at_most_once (d : Data) (ops : List DataOp)
    (h : d.is_data_owner = true) :
    Data.lifetimeInvocations d ops = (if ops = [] then 1 else 0) ∧
    Data.lifetimeInvocations d ops ≤ 1 := by
  have hmain : Data.lifetimeInvocations d ops = (if ops = [] then 1 else 0) := by
    cases ops with
    | nil => simp [Data.lifetimeInvocations, Data.runOps, Data.destroy, h]
    | cons op rest =>
      cases op with
      | moveFrom =>
        simp [Data.lifetimeInvocations, Data.runOps, Data.moveFrom,
          runOps_init_eq, destroy_init_eq]
      | release =>
        simp [Data.lifetimeInvocations, Data.runOps, Data.release,
          runOps_init_eq, destroy_init_eq, Data.destroy,
          is_data_owner_static_update, is_data_owner_init]
  refine ⟨hmain, ?_⟩
  rw [hmain]
  split <;> simp

/-- C9 witness: the amended statement evaluated on a concrete owning
descriptor that is explicitly released before destruction. -/
theorem C9_deleter_invoked_at_most_once_witness :
    Data.is_data_owner ⟨some [1, 2, 3], 3, .custom 7⟩ = true ∧
    (Data.lifetimeInvocations ⟨some [1, 2, 3], 3, .custom 7⟩ [DataOp.release] =
        (if ([DataOp.release] : List DataOp) = [] then 1 else 0) ∧
      Data.lifetimeInvocations ⟨some [1, 2, 3], 3, .custom 7⟩ [DataOp.release] ≤ 1) :=
  ⟨by decide,
    C9_deleter_invoked_at_most_once ⟨some [1, 2, 3], 3, .custom 7⟩
      [DataOp.release] (by decide)⟩

/-- C2: evaluation of `Conversions<Data<T, E>>::bind` on the three argument
shapes.  A named lvalue is bound caller-static with the descriptor untouched,
as claimed.  But a temporary rvalue that owns its buffer is NOT handed to the
engine zero-copy: the emptying `value = Data()` runs through the
move-assignment operator, whose internal temporary destroys the still-owned
buffer (one deleter invocation during the bind), and the subsequent engine
call receives the null pointer with size 0 — while still passing the release
function as the destructor, which the engine will invoke once more when done.
And a temporary rvalue that does not own its buffer is bound SQLITE_STATIC,
not SQLITE_TRANSIENT: the engine is not told to copy. -/
theorem C2_data_bind_rvalue_owner_frees_before_engine_call :
    Conversions_Data_bind .lvalue ⟨some [1, 2, 3], 3, .custom 7⟩ =
      (⟨some [1, 2, 3], 3, .sqliteStatic⟩, ⟨some [1, 2, 3], 3, .custom 7⟩, 0) ∧
    Conversions_Data_bind .rvalue ⟨some [1, 2, 3], 3, .custom 7⟩ =
      (⟨none, 0, .custom 7⟩, Data.init, 1) ∧
    Conversions_Data_bind .rvalue ⟨some [1, 2, 3], 3, .sqliteStatic⟩ =
      (⟨some [1, 2, 3], 3, .sqliteStatic⟩, ⟨some [1, 2, 3], 3, .sqliteStatic⟩, 0) := by
  decide

/-- C1: when the unit of work raises, a transaction is active and the
ROLLBACK attempt raises too, the exception that propagates out of
`with_rollback_on_error` is a NEW `Exception` ("SQLite ROLLBACK failed")
whose nested exception is the rollback failure alone: the original
unit-of-work error is dropped and is not visible to the caller, contrary to
the claim (and to the member's own documentation comment). -/
theorem C1_rollback_failure_drops_original_error :
    with_rollback_on_error
        ((Except.error (Exc.base "unit of work failed")) : Except Exc Unit) true
        (Except.error (Exc.base "cannot execute rollback")) =
      Except.error
        (Exc.withNested "SQLite ROLLBACK failed"
          (Exc.base "cannot execute rollback")) ∧
    Exc.mentions
        (Exc.withNested "SQLite ROLLBACK failed"
          (Exc.base "cannot execute rollback"))
        "unit of work failed" = false := by
  decide

/-- C6: `Statement::parameter_name(index)` does not return the parameter's
name: it calls sqlite3_column_name with `index + 1`, i.e. it returns the name
of the result COLUMN at position index + 1.  On a statement with one
parameter ":p" and two result columns "a", "b", `parameter_name(0)` returns
"b" while the parameter at zero-based index 0 is named ":p" (the engine's
sqlite3_bind_parameter_name at 1-based position 1).  The minus-one and
plus-one translations of `parameter_index` and of the bind family are as
claimed at the same input. -/
theorem C6_parameter_name_returns_column_name :
    Statement.parameter_name true ⟨[":p"], ["a", "b"]⟩ 0 = .ok (some "b") ∧
    sqlite3_bind_parameter_name ⟨[":p"], ["a", "b"]⟩ 1 = some ":p" ∧
    Statement.parameter_index true ⟨[":p"], ["a", "b"]⟩ ":p" = .ok 0 ∧
    Statement.bind true ⟨[":p"], ["a", "b"]⟩ 0 = .ok 1 ∧
    Statement.bind_null true ⟨[":p"], ["a", "b"]⟩ 0 = .ok 1 := by
  decide

/-- C7: the claim says every index outside [0, count) is rejected locally
before any engine call.  Counterexample: index -1 passes the only validation
performed (`index < parameter_count()`), and the engine IS invoked —
sqlite3_bind_null receives the out-of-range 1-based index 0. -/
theorem C7_negative_index_reaches_engine :
    Statement.bind_null true ⟨[":p"], []⟩ (-1) = .ok 0 ∧
    Statement.result true ⟨[], ["a"]⟩ (-1) = .ok (-1) := by
  decide

/-- C7 (amended): index validation checks only the upper bound, on all five
index-taking operations (bind, bind_null, result, parameter_name,
column_name): with a valid handle, a precondition error is raised locally
exactly when `index ≥ count` (the parameter count for the parameter
operations, the column count for the column operations); any index below the
count — including every negative index — passes validation and the engine
call is made (with index + 1 for bind, bind_null and parameter_name, with
index unchanged for result and column_name). -/
theorem C7_upper_bound_only_validation (info : StmtInfo) (index : Int) :
    Statement.bind_null true info index =
      (if index < sqlite3_bind_parameter_count info then .ok (index + 1)
       else .error (.precondition
         "cannot bind NULL to a parameter of SQLite statement using invalid index")) ∧
    Statement.bind true info index =
      (if index < sqlite3_bind_parameter_count info then .ok (index + 1)
       else .error (.precondition
         "cannot bind a value to a parameter of SQLite statement using invalid index")) ∧
    Statement.result true info index =
      (if index < sqlite3_column_count info then .ok index
       else .error (.precondition
         "cannot get result column value of SQLite statement using invalid index")) ∧
    Statement.parameter_name true info index =
      (if index < sqlite3_bind_parameter_count info
       then .ok (sqlite3_column_name info (index + 1))
       else .error (.precondition
         "cannot get SQLite statement parameter name using invalid index")) ∧
    Statement.column_name true info index =
      (if index < sqlite3_column_count info
       then .ok (sqlite3_column_name info index)
       else .error (.precondition
         "cannot get result column count of SQLite statement using invalid index")) := by
  refine ⟨?_, ?_, ?_, ?_, ?_⟩
  · by_cases h : index < sqlite3_bind_parameter_count info <;>
      simp [Statement.bind_null, h]
  · by_cases h : index < sqlite3_bind_parameter_count info <;>
      simp [Statement.bind, h]
  · by_cases h : index < sqlite3_column_count info <;>
      simp [Statement.result, h]
  · by_cases h : index < sqlite3_bind_parameter_count info <;>
      simp [Statement.parameter_name, h]
  · by_cases h : index < sqlite3_column_count info <;>
      simp [Statement.column_name, h]

/-- C8: the claim says Connection's explicit close mirrors Statement's
non-raising behaviour.  Counterexample: when sqlite3_close reports failure
(here SQLITE_ERROR = 1), `Connection::close()` RAISES a Sqlite_exception. -/
theorem C8_connection_close_raises :
    Connection.close 1 =
      .error (.engine 1 "failed closing a SQLite database connection") := by
  decide

/-- C8 (amended): `Statement::close` finalizes and returns the engine's
result code without ever raising (and the Statement destructor therefore
never logs); `Connection::close` does NOT mirror this: it raises a
Sqlite_exception whenever sqlite3_close returns non-OK, and the
log-and-swallow behaviour for the connection exists only in its destructor,
which never propagates. -/
theorem C8_close_behaviour (r : Int) :
    Statement.close r = (r, -1, false) ∧
    Statement.destructor r = false ∧
    Connection.close r =
      (if r = SQLITE_OK then .ok false
       else .error (.engine r "failed closing a SQLite database connection")) ∧
    Connection.destructor r = !(decide (r = SQLITE_OK)) := by
  refine ⟨rfl, rfl, ?_, ?_⟩ <;>
    by_cases h : r = SQLITE_OK <;>
      simp [Connection.close, Connection.destructor, h]

/-- C10: binding a C string (`const char*`), by index or by name, always
tells the engine the bytes are caller-static: sqlite3_bind_text is called
with byte count -1 (the engine measures the string) and destructor
SQLITE_STATIC — no copy is made and no release function is handed over,
regardless of how the argument was produced (the parameter is a plain
pointer, so there is no lvalue/rvalue distinction). -/
theorem C10_cstring_bind_always_static (info : StmtInfo) (index i : Int)
    (name : String)
    (h : index < sqlite3_bind_parameter_count info)
    (hn : Statement.parameter_index_throw true info name = .ok i) :
    Statement.bindCString true info index =
      .ok ⟨index + 1, -1, Deleter.sqliteStatic⟩ ∧
    Statement.bindCStringByName true info name =
      .ok ⟨i + 1, -1, Deleter.sqliteStatic⟩ := by
  have h1 : Statement.bindCString true info index =
      .ok ⟨index + 1, -1, Deleter.sqliteStatic⟩ := by
    simp [Statement.bindCString, h]
  refine ⟨h1, ?_⟩
  have hn0 := hn
  simp only [Statement.parameter_index_throw, Statement.parameter_index,
    Bool.not_true, Bool.false_eq_true, if_false] at hn
  split at hn
  · exact absurd hn (by simp)
  · rename_i hnonneg
    have hi : sqlite3_bind_parameter_index info name - 1 = i := by
      simpa using hn
    have hlt : i < sqlite3_bind_parameter_count info := by
      unfold sqlite3_bind_parameter_index at hi hnonneg
      unfold sqlite3_bind_parameter_count
      cases hfi : List.findIdx? (fun s => s == name) info.paramNames with
      | none =>
        rw [hfi] at hnonneg
        simp at hnonneg
      | some k =>
        rw [hfi] at hi
        simp at hi
        have hk : k < info.paramNames.length :=
          (List.findIdx?_eq_some_iff_getElem.mp hfi).1
        omega
    simp [Statement.bindCStringByName, hn0, Statement.bindCString, hlt]

/-- C10 witness: the C-string bind evaluated on a statement with parameters
":a" and ":b", bound by index 0 and by name ":b". -/
theorem C10_cstring_bind_always_static_witness :
    ((0 : Int) < sqlite3_bind_parameter_count ⟨[":a", ":b"], []⟩ ∧
      Statement.parameter_index_throw true ⟨[":a", ":b"], []⟩ ":b" = .ok 1) ∧
    (Statement.bindCString true ⟨[":a", ":b"], []⟩ 0 =
        .ok ⟨0 + 1, -1, Deleter.sqliteStatic⟩ ∧
      Statement.bindCStringByName true ⟨[":a", ":b"], []⟩ ":b" =
        .ok ⟨1 + 1, -1, Deleter.sqliteStatic⟩) :=
  ⟨⟨by decide, by decide⟩,
    C10_cstring_bind_always_static ⟨[":a", ":b"], []⟩ 0 1 ":b"
      (by decide) (by decide)⟩

/-- C5: bind-then-read round trips through the Conversion Registry.  The
scalar conversions are lossless (`int` within the 32-bit range, 64-bit
integers and doubles exactly), text round-trips byte-for-byte, and a blob
descriptor bound as a named lvalue round-trips byte-for-byte.  But the claim
fails for a blob descriptor bound as a temporary that owns its buffer: the
bind slip recorded in C2 means the engine receives the null pointer, so the
read-back yields an empty (NULL) value instead of the original bytes. -/
theorem C5_bind_read_roundtrip (v32 v64 : Int) (r : Float) (cat : PassCat)
    (s bytes : List Nat) (id : Nat)
    (h1 : -(2 ^ 31) ≤ v32) (h2 : v32 < 2 ^ 31) :
    Conversions_int_result (Conversions_int_bind v32) = some v32 ∧
    Conversions_int64_result (Conversions_int64_bind v64) = some v64 ∧
    Conversions_double_result (Conversions_double_bind r) = some r ∧
    Conversions_string_result (string_store cat s) = some s ∧
    Data_roundtrip .lvalue ⟨some bytes, bytes.length, .custom id⟩ =
      some ⟨some bytes, bytes.length, .sqliteStatic⟩ ∧
    Data_roundtrip .rvalue ⟨some [1, 2, 3], 3, .custom 7⟩ =
      some ⟨none, 0, .sqliteStatic⟩ := by
  refine ⟨?_, rfl, rfl, ?_, ?_, by decide⟩
  · simp only [Conversions_int_result, Conversions_int_bind, toInt32]
    have hmod : (v32 + 2 ^ 31) % 2 ^ 32 = v32 + 2 ^ 31 :=
      Int.emod_eq_of_lt (by omega) (by omega)
    simp [hmod]
    omega
  · cases cat <;>
      simp [Conversions_string_result, string_store, Conversions_string_bind]
  · simp [Data_roundtrip, Conversions_Data_bind, Data.is_data_owner,
      Data_store, Conversions_Data_result, List.take_length]

/-- C5 witness: the round-trip statement evaluated at concrete values of
every supported type. -/
theorem C5_bind_read_roundtrip_witness :
    (-(2 ^ 31) ≤ (5 : Int) ∧ (5 : Int) < 2 ^ 31) ∧
    (Conversions_int_result (Conversions_int_bind 5) = some 5 ∧
      Conversions_int64_result (Conversions_int64_bind 1099511627776) =
        some 1099511627776 ∧
      Conversions_double_result (Conversions_double_bind 2.5) = some 2.5 ∧
      Conversions_string_result (string_store .lvalue [104, 105]) =
        some [104, 105] ∧
      Data_roundtrip .lvalue ⟨some [1, 2], [1, 2].length, .custom 9⟩ =
        some ⟨some [1, 2], [1, 2].length, .sqliteStatic⟩ ∧
      Data_roundtrip .rvalue ⟨some [1, 2, 3], 3, .custom 7⟩ =
        some ⟨none, 0, .sqliteStatic⟩) :=
  ⟨⟨by decide, by decide⟩,
    C5_bind_read_roundtrip 5 1099511627776 2.5 .lvalue [104, 105] [1, 2] 9
      (by decide) (by decide)⟩

/-- Helper: every event the step loop emits is a step or a callback
invocation — never a reset and never a binding. -/
theorem stepLoop_events_loop (kind : CbKind) (cont : Nat → Bool)
    (steps : List Int) :
    ∀ (n : Nat) (e : Event),
      e ∈ (Statement.stepLoop kind cont steps n).2.2 → isLoopEvent e = true := by
  induction steps with
  | nil =>
    intro n e he
    simp [Statement.stepLoop] at he
  | cons c rest ih =>
    intro n e he
    simp only [Statement.stepLoop] at he
    by_cases h1 : c = SQLITE_ROW
    · rw [if_pos h1] at he
      by_cases h2 : cont n
      · rw [if_pos h2] at he
        cases kind <;> simp at he <;>
          rcases he with rfl | rfl | he <;>
          first
          | rfl
          | exact ih (n + 1) e he
      · rw [if_neg h2] at he
        cases kind <;> simp at he <;> rcases he with rfl | rfl <;> rfl
    · rw [if_neg h1] at he
      by_cases h3 : c = SQLITE_DONE
      · rw [if_pos h3] at he
        simp at he
        subst he
        rfl
      · rw [if_neg h3] at he
        cases kind with
        | plain =>
          simp at he
          subst he
          rfl
        | witherr =>
          simp at he
          rcases he with rfl | rfl <;> rfl

/-- Helper: `bindsOf` distributes over list append. -/
theorem bindsOf_append (l1 l2 : List Event) :
    bindsOf (l1 ++ l2) = bindsOf l1 ++ bindsOf l2 := by
  induction l1 with
  | nil => rfl
  | cons a l ih => cases a <;> simp [bindsOf, ih]

/-- Helper: `stepsOf` adds over list append. -/
theorem stepsOf_append (l1 l2 : List Event) :
    stepsOf (l1 ++ l2) = stepsOf l1 + stepsOf l2 := by
  induction l1 with
  | nil => simp [stepsOf]
  | cons a l ih =>
    cases a <;> simp [stepsOf, ih]
    omega

/-- Helper: an event list of loop events records no positional binding. -/
theorem bindsOf_of_loop (evs : List Event)
    (h : ∀ e ∈ evs, isLoopEvent e = true) : bindsOf evs = [] := by
  induction evs with
  | nil => rfl
  | cons a l ih =>
    have ha := h a (by simp)
    have hl : ∀ e ∈ l, isLoopEvent e = true := fun e he => h e (by simp [he])
    cases a <;> simp [isLoopEvent] at ha <;> simp [bindsOf, ih hl]

/-- Helper: the bindings recorded by mapping `bindp` over explicit pairs are
exactly those pairs. -/
theorem bindsOf_map_bindp (l : List (Nat × Int)) :
    bindsOf (l.map fun p => Event.bindp p.1 p.2) = l := by
  induction l with
  | nil => rfl
  | cons a l ih => simp [bindsOf, ih]

/-- Helper: `bind_many` binds the values positionally, in order, at wrapper
indexes 0 .. n-1. -/
theorem bindsOf_bind_many (values : List Int) :
    bindsOf (bind_many values) = values.enum :=
  bindsOf_map_bindp values.enum

/-- Helper: the events of `Statement.execute` on a valid handle are the
auto-reset (exactly when entering at done), the positional binding (exactly
when entering at a negative marker or at done), and the step-loop events. -/
theorem execute_events_eq (kind : CbKind) (cont : Nat → Bool) (last0 : Int)
    (values : List Int) (steps : List Int) :
    (Statement.execute kind cont true last0 values steps).events =
      (if last0 = SQLITE_DONE then [Event.reset] else []) ++
        (if last0 < 0 ∨ last0 = SQLITE_DONE
          then Event.bindCall values :: bind_many values else []) ++
        (Statement.stepLoop kind cont steps 0).2.2 := by
  by_cases hdone : last0 = SQLITE_DONE
  · simp [Statement.execute, hdone, SQLITE_DONE]
  · by_cases hneg : last0 < 0 <;>
      simp [Statement.execute, hdone, hneg]

/-- Helper: the result and the final step marker of `Statement.execute` on a
valid handle are those of the step loop. -/
theorem execute_result_eq (kind : CbKind) (cont : Nat → Bool) (last0 : Int)
    (values : List Int) (steps : List Int) :
    (Statement.execute kind cont true last0 values steps).result =
      (Statement.stepLoop kind cont steps 0).1 ∧
    (Statement.execute kind cont true last0 values steps).last =
      (Statement.stepLoop kind cont steps 0).2.1 := by
  constructor <;> simp [Statement.execute]

/-- Helper: the step loop on `rows` SQLITE_ROW results followed by a code
that is neither row nor done, with an always-continuing callback: the
one-parameter form raises the typed engine error, the two-parameter form
returns the code after invoking the callback with it; in both forms the
marker ends at the code and the events are the row events followed by the
final step (and, in the two-parameter form, the error callback). -/
theorem stepLoop_replicate_row (kind : CbKind) (c : Int) (rest : List Int)
    (hc1 : ¬ c = SQLITE_ROW) (hc2 : ¬ c = SQLITE_DONE) :
    ∀ (rows n : Nat),
      Statement.stepLoop kind (fun _ => true)
          (List.replicate rows SQLITE_ROW ++ c :: rest) n =
        ((match kind with
          | CbKind.plain =>
            Except.error (.engine c "SQLite statement execution failed")
          | CbKind.witherr => Except.ok c),
          c,
          rowEvents kind rows ++
            (match kind with
              | CbKind.plain => [Event.step c]
              | CbKind.witherr => [Event.step c, Event.cbErr c])) := by
  intro rows
  induction rows with
  | zero =>
    intro n
    simp only [List.replicate, List.nil_append, Statement.stepLoop]
    rw [if_neg hc1, if_neg hc2]
    cases kind <;> simp [rowEvents]
  | succ m ih =>
    intro n
    simp only [List.replicate_succ, List.cons_append, Statement.stepLoop]
    cases kind <;> simp [ih (n + 1), rowEvents]

/-- Helper: the row events contain `rows` steps. -/
theorem stepsOf_rowEvents (kind : CbKind) (rows : Nat) :
    stepsOf (rowEvents kind rows) = rows := by
  induction rows with
  | zero => rfl
  | succ m ih => cases kind <;> simp [rowEvents, stepsOf, ih]

/-- Helper: the row events contain no error-callback invocation. -/
theorem cbErr_not_in_rowEvents (kind : CbKind) (rows : Nat) (x : Int) :
    Event.cbErr x ∉ rowEvents kind rows := by
  induction rows with
  | zero => simp [rowEvents]
  | succ m ih => cases kind <;> simp [rowEvents, ih]

/-- Helper: neither the auto-reset prefix nor the binding prefix of the
execute events contains a step or an error-callback event, so step counts
come from the loop alone. -/
theorem stepsOf_execute (kind : CbKind) (cont : Nat → Bool) (last0 : Int)
    (values : List Int) (steps : List Int) :
    stepsOf (Statement.execute kind cont true last0 values steps).events =
      stepsOf (Statement.stepLoop kind cont steps 0).2.2 := by
  rw [execute_events_eq, stepsOf_append, stepsOf_append]
  have h1 : stepsOf (if last0 = SQLITE_DONE then [Event.reset] else []) = 0 := by
    split <;> rfl
  have h2 : ∀ l : List (Nat × Int),
      stepsOf (l.map fun p => Event.bindp p.1 p.2) = 0 := by
    intro l
    induction l with
    | nil => rfl
    | cons a t ih => simp [stepsOf, ih]
  have h3 : stepsOf
      (if last0 < 0 ∨ last0 = SQLITE_DONE
        then Event.bindCall values :: bind_many values else []) = 0 := by
    split
    · simp [stepsOf, bind_many, h2]
    · rfl
  omega

/-- C4: when a step returns an error code, the one-parameter callback form
raises a `Sqlite_exception` carrying the code and the engine message, and
the error callback is never invoked; the two-parameter form instead invokes
the callback with the code and stops — `execute` returns the code normally
and performs no further step.  The two forms are the two mutually exclusive
specializations of `Execute_callback_traits`, selected statically from the
callback's signature (the `CbKind` index of the model). -/
theorem C4_step_error_dispatch (rows : Nat) (c : Int) (rest values : List Int)
    (last0 : Int) (hc1 : ¬ c = SQLITE_ROW) (hc2 : ¬ c = SQLITE_DONE) :
    (Statement.execute .plain (fun _ => true) true last0 values
        (List.replicate rows SQLITE_ROW ++ c :: rest)).result =
      .error (.engine c "SQLite statement execution failed") ∧
    (∀ x, Event.cbErr x ∉
      (Statement.execute .plain (fun _ => true) true last0 values
        (List.replicate rows SQLITE_ROW ++ c :: rest)).events) ∧
    (Statement.execute .witherr (fun _ => true) true last0 values
        (List.replicate rows SQLITE_ROW ++ c :: rest)).result = .ok c ∧
    Event.cbErr c ∈
      (Statement.execute .witherr (fun _ => true) true last0 values
        (List.replicate rows SQLITE_ROW ++ c :: rest)).events ∧
    stepsOf (Statement.execute .witherr (fun _ => true) true last0 values
        (List.replicate rows SQLITE_ROW ++ c :: rest)).events = rows + 1 ∧
    stepsOf (Statement.execute .plain (fun _ => true) true last0 values
        (List.replicate rows SQLITE_ROW ++ c :: rest)).events = rows + 1 := by
  have hp := stepLoop_replicate_row .plain c rest hc1 hc2 rows 0
  have hw := stepLoop_replicate_row .witherr c rest hc1 hc2 rows 0
  refine ⟨?_, ?_, ?_, ?_, ?_, ?_⟩
  · rw [(execute_result_eq _ _ _ _ _).1, hp]
  · intro x hx
    rw [execute_events_eq] at hx
    simp only [List.mem_append] at hx
    rcases hx with (hx | hx) | hx
    · revert hx
      split <;> simp
    · revert hx
      split <;> simp [bind_many]
    · rw [hp] at hx
      simp only [List.mem_append] at hx
      rcases hx with hx | hx
      · exact cbErr_not_in_rowEvents .plain rows x hx
      · simp at hx
  · rw [(execute_result_eq _ _ _ _ _).1, hw]
  · rw [execute_events_eq]
    simp only [List.mem_append]
    right
    rw [hw]
    simp
  · rw [stepsOf_execute, hw]
    simp [stepsOf_append, stepsOf_rowEvents, stepsOf]
  · rw [stepsOf_execute, hp]
    simp [stepsOf_append, stepsOf_rowEvents, stepsOf]

/-- C4 witness: one row followed by the error code SQLITE_ERROR = 1. -/
theorem C4_step_error_dispatch_witness :
    (¬ (1 : Int) = SQLITE_ROW ∧ ¬ (1 : Int) = SQLITE_DONE) ∧
    ((Statement.execute .plain (fun _ => true) true (-1) [5]
        (List.replicate 1 SQLITE_ROW ++ 1 :: [SQLITE_DONE])).result =
      .error (.engine 1 "SQLite statement execution failed") ∧
    (∀ x, Event.cbErr x ∉
      (Statement.execute .plain (fun _ => true) true (-1) [5]
        (List.replicate 1 SQLITE_ROW ++ 1 :: [SQLITE_DONE])).events) ∧
    (Statement.execute .witherr (fun _ => true) true (-1) [5]
        (List.replicate 1 SQLITE_ROW ++ 1 :: [SQLITE_DONE])).result = .ok 1 ∧
    Event.cbErr 1 ∈
      (Statement.execute .witherr (fun _ => true) true (-1) [5]
        (List.replicate 1 SQLITE_ROW ++ 1 :: [SQLITE_DONE])).events ∧
    stepsOf (Statement.execute .witherr (fun _ => true) true (-1) [5]
        (List.replicate 1 SQLITE_ROW ++ 1 :: [SQLITE_DONE])).events = 1 + 1 ∧
    stepsOf (Statement.execute .plain (fun _ => true) true (-1) [5]
        (List.replicate 1 SQLITE_ROW ++ 1 :: [SQLITE_DONE])).events = 1 + 1) :=
  ⟨⟨by decide, by decide⟩,
    C4_step_error_dispatch 1 1 [SQLITE_DONE] [5] (-1) (by decide) (by decide)⟩

/-- Helper: with a step oracle an actual engine can produce, the loop exits
at a non-negative engine code (never the artificial exhaustion marker). -/
theorem stepLoop_last_nonneg (kind : CbKind) (cont : Nat → Bool) :
    ∀ (steps : List Int) (n : Nat), goodSteps steps = true →
      0 ≤ (Statement.stepLoop kind cont steps n).2.1 := by
  intro steps
  induction steps with
  | nil =>
    intro n h
    simp [goodSteps] at h
  | cons c rest ih =>
    intro n h
    simp only [goodSteps, List.all_cons, List.any_cons, Bool.and_eq_true,
      Bool.or_eq_true, decide_eq_true_eq, Bool.not_eq_eq_eq_not,
      Bool.not_true, decide_eq_false_iff_not] at h
    obtain ⟨⟨hc, hall⟩, hany⟩ := h
    simp only [Statement.stepLoop]
    by_cases h1 : c = SQLITE_ROW
    · rw [if_pos h1]
      by_cases h2 : cont n
      · rw [if_pos h2]
        apply ih (n + 1)
        simp only [goodSteps, Bool.and_eq_true]
        refine ⟨hall, ?_⟩
        rcases hany with hc' | hrest
        · exact absurd h1 hc'
        · exact hrest
      · rw [if_neg h2]
        exact hc
    · rw [if_neg h1]
      by_cases h3 : c = SQLITE_DONE
      · rw [if_pos h3]
        exact hc
      · rw [if_neg h3]
        cases kind <;> simpa using hc

/-- Helper: the auto-reset of `execute` happens exactly when the statement
enters at done. -/
theorem reset_mem_execute (kind : CbKind) (cont : Nat → Bool) (last0 : Int)
    (values : List Int) (steps : List Int) :
    (Event.reset ∈
        (Statement.execute kind cont true last0 values steps).events) ↔
      last0 = SQLITE_DONE := by
  rw [execute_events_eq]
  simp only [List.mem_append]
  constructor
  · rintro ((h | h) | h)
    · revert h
      split
      · rename_i hcond
        intro _
        exact hcond
      · simp
    · revert h
      split <;> simp [bind_many]
    · exact absurd (stepLoop_events_loop kind cont steps 0 _ h)
        (by simp [isLoopEvent])
  · intro hcond
    left
    left
    rw [if_pos hcond]
    simp

/-- Helper: the bind-many call of `execute` happens exactly when the
statement enters at a negative marker or at done. -/
theorem bindCall_mem_execute (kind : CbKind) (cont : Nat → Bool)
    (last0 : Int) (values : List Int) (steps : List Int) :
    (Event.bindCall values ∈
        (Statement.execute kind cont true last0 values steps).events) ↔
      (last0 < 0 ∨ last0 = SQLITE_DONE) := by
  rw [execute_events_eq]
  simp only [List.mem_append]
  constructor
  · rintro ((h | h) | h)
    · revert h
      split <;> simp
    · revert h
      split
      · rename_i hcond
        intro _
        exact hcond
      · simp
    · exact absurd (stepLoop_events_loop kind cont steps 0 _ h)
        (by simp [isLoopEvent])
  · intro hcond
    left
    right
    rw [if_pos hcond]
    simp

/-- Helper: the positional bindings `execute` performs are the supplied
values, in order at indexes 0 .. n-1, exactly when the statement enters at a
negative marker or at done — and none otherwise. -/
theorem bindsOf_execute (kind : CbKind) (cont : Nat → Bool) (last0 : Int)
    (values : List Int) (steps : List Int) :
    bindsOf (Statement.execute kind cont true last0 values steps).events =
      (if last0 < 0 ∨ last0 = SQLITE_DONE then values.enum else []) := by
  rw [execute_events_eq, bindsOf_append, bindsOf_append]
  have h1 : bindsOf (if last0 = SQLITE_DONE then [Event.reset] else []) = [] := by
    split <;> rfl
  have h3 : bindsOf (Statement.stepLoop kind cont steps 0).2.2 = [] :=
    bindsOf_of_loop _ (stepLoop_events_loop kind cont steps 0)
  rw [h1, h3]
  split
  · simp [bindsOf, bindsOf_bind_many]
  · simp [bindsOf]

/-- Helper: the ghost flag of the session model is an accurate account of the
step marker: along any sequence of member-function calls whose step oracles
an actual engine can produce, "a positional binding has occurred since the
initial/reset state or since the last done" holds exactly when the marker is
non-negative and not done. -/
theorem sessRun_invariant (ops : List SessOp) :
    ∀ st : SessSt, goodOps ops = true →
      st.sinceBoundary = !(decide (st.last < 0 ∨ st.last = SQLITE_DONE)) →
      (sessRun st ops).sinceBoundary =
        !(decide ((sessRun st ops).last < 0 ∨
          (sessRun st ops).last = SQLITE_DONE)) := by
  induction ops with
  | nil =>
    intro st _ hinv
    exact hinv
  | cons op rest ih =>
    intro st h hinv
    have hrest : goodOps rest = true := by
      simp only [goodOps, List.all_cons, Bool.and_eq_true] at h
      exact h.2
    cases op with
    | resetOp =>
      simp only [sessRun]
      exact ih _ hrest (by decide)
    | exec kind cont values steps =>
      have hgs : goodSteps steps = true := by
        simp only [goodOps, List.all_cons, Bool.and_eq_true] at h
        exact h.1
      simp only [sessRun]
      apply ih _ hrest
      simp only [sessExec]
      by_cases hdone :
          (Statement.execute kind cont true st.last values steps).last =
            SQLITE_DONE
      · simp [hdone]
      · have hlast :
            0 ≤ (Statement.execute kind cont true st.last values steps).last := by
          rw [(execute_result_eq kind cont st.last values steps).2]
          exact stepLoop_last_nonneg kind cont steps 0 hgs
        have hcondfalse :
            decide ((Statement.execute kind cont true st.last values steps).last
                < 0 ∨
              (Statement.execute kind cont true st.last values steps).last =
                SQLITE_DONE) = false := by
          simp only [decide_eq_false_iff_not]
          push_neg
          exact ⟨by omega, hdone⟩
        have hdid :
            decide (Event.bindCall values ∈
              (Statement.execute kind cont true st.last values steps).events) =
              !st.sinceBoundary := by
          rw [hinv]
          simp [bindCall_mem_execute]
        rw [if_neg hdone, hdid, Bool.or_not_self, hcondfalse, Bool.not_false]

/-- C3: along any session of execute/reset calls whose step oracles an
actual engine can produce, the next `execute(callback, values...)` call
(i) performs the automatic `reset()` exactly when the previous step result
was SQLITE_DONE, (ii) binds the supplied positional values, in order at
wrapper indexes 0 .. n-1, exactly when no positional binding has occurred
since the statement's initial/reset state or since the last done (the ghost
flag of the session model), and (iii) a statement executed to completion
(entering at done) re-binds and re-runs exactly like a freshly reset one,
with the automatic reset and no caller-side `reset()`. -/
theorem C3_autoreset_and_positional_bind (ops : List SessOp) (kind : CbKind)
    (cont : Nat → Bool) (values : List Int) (steps : List Int)
    (h : goodOps ops = true) :
    ((Event.reset ∈ (Statement.execute kind cont true
        (sessRun SessSt.init ops).last values steps).events) ↔
      (sessRun SessSt.init ops).last = SQLITE_DONE) ∧
    (bindsOf (Statement.execute kind cont true
        (sessRun SessSt.init ops).last values steps).events =
      (if (sessRun SessSt.init ops).sinceBoundary = false then values.enum
       else [])) ∧
    ((Event.bindCall values ∈ (Statement.execute kind cont true
        (sessRun SessSt.init ops).last values steps).events) ↔
      (sessRun SessSt.init ops).sinceBoundary = false) ∧
    ((Statement.execute kind cont true SQLITE_DONE values steps).result =
      (Statement.execute kind cont true (-1) values steps).result ∧
     (Statement.execute kind cont true SQLITE_DONE values steps).last =
      (Statement.execute kind cont true (-1) values steps).last ∧
     (Statement.execute kind cont true SQLITE_DONE values steps).events =
      Event.reset ::
        (Statement.execute kind cont true (-1) values steps).events) := by
  have hinv := sessRun_invariant ops SessSt.init h (by decide)
  have hflag : (sessRun SessSt.init ops).sinceBoundary = false ↔
      ((sessRun SessSt.init ops).last < 0 ∨
        (sessRun SessSt.init ops).last = SQLITE_DONE) := by
    rw [hinv]
    by_cases hc : ((sessRun SessSt.init ops).last < 0 ∨
        (sessRun SessSt.init ops).last = SQLITE_DONE) <;> simp [hc]
  refine ⟨?_, ?_, ?_, ?_, ?_, ?_⟩
  · exact reset_mem_execute kind cont _ values steps
  · rw [bindsOf_execute]
    by_cases hcond : ((sessRun SessSt.init ops).last < 0 ∨
        (sessRun SessSt.init ops).last = SQLITE_DONE)
    · rw [if_pos hcond, if_pos (hflag.mpr hcond)]
    · rw [if_neg hcond, if_neg (fun hf => hcond (hflag.mp hf))]
  · rw [bindCall_mem_execute]
    exact hflag.symm
  · rw [(execute_result_eq kind cont SQLITE_DONE values steps).1,
      (execute_result_eq kind cont (-1) values steps).1]
  · rw [(execute_result_eq kind cont SQLITE_DONE values steps).2,
      (execute_result_eq kind cont (-1) values steps).2]
  · rw [execute_events_eq, execute_events_eq]
    norm_num [SQLITE_DONE]

/-- C3 witness: a session consisting of one execute call that ran to
completion (its single step returned SQLITE_DONE), followed by a fresh
execute with a new positional value. -/
theorem C3_autoreset_and_positional_bind_witness :
    goodOps [SessOp.exec .plain (fun _ => true) [7] [SQLITE_DONE]] = true ∧
    (((Event.reset ∈ (Statement.execute .plain (fun _ => true) true
        (sessRun SessSt.init
          [SessOp.exec .plain (fun _ => true) [7] [SQLITE_DONE]]).last [8]
        [SQLITE_ROW, SQLITE_DONE]).events) ↔
      (sessRun SessSt.init
        [SessOp.exec .plain (fun _ => true) [7] [SQLITE_DONE]]).last =
        SQLITE_DONE) ∧
    (bindsOf (Statement.execute .plain (fun _ => true) true
        (sessRun SessSt.init
          [SessOp.exec .plain (fun _ => true) [7] [SQLITE_DONE]]).last [8]
        [SQLITE_ROW, SQLITE_DONE]).events =
      (if (sessRun SessSt.init
          [SessOp.exec .plain (fun _ => true) [7] [SQLITE_DONE]]).sinceBoundary
            = false
       then ([8] : List Int).enum else [])) ∧
    ((Event.bindCall [8] ∈ (Statement.execute .plain (fun _ => true) true
        (sessRun SessSt.init
          [SessOp.exec .plain (fun _ => true) [7] [SQLITE_DONE]]).last [8]
        [SQLITE_ROW, SQLITE_DONE]).events) ↔
      (sessRun SessSt.init
        [SessOp.exec .plain (fun _ => true) [7] [SQLITE_DONE]]).sinceBoundary
        = false) ∧
    ((Statement.execute .plain (fun _ => true) true SQLITE_DONE [8]
        [SQLITE_ROW, SQLITE_DONE]).result =
      (Statement.execute .plain (fun _ => true) true (-1) [8]
        [SQLITE_ROW, SQLITE_DONE]).result ∧
     (Statement.execute .plain (fun _ => true) true SQLITE_DONE [8]
        [SQLITE_ROW, SQLITE_DONE]).last =
      (Statement.execute .plain (fun _ => true) true (-1) [8]
        [SQLITE_ROW, SQLITE_DONE]).last ∧
     (Statement.execute .plain (fun _ => true) true SQLITE_DONE [8]
        [SQLITE_ROW, SQLITE_DONE]).events =
      Event.reset ::
        (Statement.execute .plain (fun _ => true) true (-1) [8]
          [SQLITE_ROW, SQLITE_DONE]).events)) :=
  ⟨by decide,
    C3_autoreset_and_positional_bind
      [SessOp.exec .plain (fun _ => true) [7] [SQLITE_DONE]] .plain
      (fun _ => true) [8] [SQLITE_ROW, SQLITE_DONE] (by decide)⟩

end Sqlixx
